import Mathlib

/-!
Verification of the relationship reconciliation engine of the
openproject-jira-importer repository (src/create-relationships.js).

The JavaScript module keeps two module-level mutable structures (the
issue-key to work-package-id Map and the missing-relationships Set) and
talks to the OpenProject REST API.  The embedding below passes that
state explicitly: a `MigState` carries the mapping, the pending set
(modelled as a duplicate-free list in insertion order, matching the JS
Set of JSON strings), the server state, and a trace of observable
events (API calls issued and the key log lines the code prints).

Server model: OpenProject stores at most one parent per work package;
the hierarchy is modelled as a child-to-parent association list, with
the children list of a work package derived from it, exactly as the
server derives the `children` links from the stored parent fields.
Fetching a work package never fails in the model (a work package with
no stored links yields an empty link set), and hrefs are elided to the
ids that `getHrefId` extracts from them.  Whether a POST of a new
relation succeeds server-side is modelled by the `acceptCreate` field;
a rejected POST leaves the relation store unchanged, mirroring the
error that the source catches and logs.
-/

namespace OJI

abbrev WorkPackageId := Nat

abbrev IssueKey := String

/-- Stored relation of the target system: `fromId` relates to `toId`
with the given type tag. -/
structure WPRelation where
  fromId : WorkPackageId
  toId : WorkPackageId
  type : String
deriving DecidableEq, Repr

/-- State of the OpenProject server as seen by the module: the
parent hierarchy (child, parent) pairs, the relation index, and the
server-side acceptance behaviour for relation creation. -/
structure Server where
  parents : List (WorkPackageId × WorkPackageId)
  relations : List WPRelation
  acceptCreate : WorkPackageId → WorkPackageId → String → Bool

/-- Entry of the missingRelationships set (source lines 231-237,
313-319, 326-332): both endpoints are kept as raw Jira issue keys
together with the relation type. -/
structure PendingRel where
  fromKey : IssueKey
  toKey : IssueKey
  type : String
deriving DecidableEq, Repr

/-- Observable events: the three API calls the module issues, plus the
two log lines that matter to the claims (the "Attempting to create
relationship" line opening createRelationship, and the "Still missing
work package" line of the retry pass). -/
inductive MigEvent where
  | fetchWorkPackage (id : WorkPackageId)
  | queryRelations (fromId toId : WorkPackageId)
  | postRelation (fromId toId : WorkPackageId) (type : String)
  | attemptCreate (fromId toId : WorkPackageId) (type : String)
  | stillMissing (fromKey toKey : IssueKey) (type : String)
deriving DecidableEq, Repr

/-- Module state: the module-level issueToWorkPackageMap (line 18) and
missingRelationships set (line 21), the server, and the event trace. -/
structure MigState where
  issueToWorkPackageMap : List (IssueKey × WorkPackageId)
  missing : List PendingRel
  server : Server
  trace : List MigEvent

/-- Fresh module state, as on module load: both module-level
structures empty (source lines 18 and 21). -/
def initState (srv : Server) : MigState :=
  { issueToWorkPackageMap := [], missing := [], server := srv, trace := [] }

/-- Linked issue as it appears inside a Jira issue link: its key and
its (optional) creation timestamp, read as `fields?.created`.
Timestamps are ISO strings compared lexicographically in the source;
the embedding uses naturals, which is order-isomorphic. -/
structure LinkedIssue where
  key : IssueKey
  created : Option Nat
deriving DecidableEq, Repr

/-- Jira issue link.  A link carries exactly one linked side: either an
outwardIssue together with the outward type verb, or an inwardIssue
together with the inward type verb (the source checks
`link.outwardIssue` first, then `link.inwardIssue`). -/
inductive IssueLink where
  | outward (typeOutward : String) (outwardIssue : LinkedIssue)
  | inward (typeInward : String) (inwardIssue : LinkedIssue)
deriving DecidableEq, Repr

/-- Jira issue as consumed by handleRelationships: key, creation
timestamp, the epic-link custom field and the issue link list.
`none` for issuelinks models an absent (undefined) field, which is
falsy in JS, whereas a present array (even empty) is truthy. -/
structure Issue where
  key : IssueKey
  created : Nat
  customfield_10014 : Option IssueKey
  issuelinks : Option (List IssueLink)
deriving DecidableEq, Repr

/-- Lookup in the issueToWorkPackageMap (JS Map.get: first matching
key; keys are unique by construction of Map.set). -/
def lookupWP : List (IssueKey × WorkPackageId) → IssueKey → Option WorkPackageId
  | [], _ => none
  | (k, v) :: rest, key => if k = key then some v else lookupWP rest key

/-- JS truthiness of a Map.get result used as `if (!id) return`:
undefined and the number 0 are both falsy. -/
def truthyId : Option WorkPackageId → Option WorkPackageId
  | none => none
  | some id => if id = 0 then none else some id

/-- JS truthiness of an optional string field: undefined and the empty
string are falsy. -/
def strTruthy : Option String → Bool
  | none => false
  | some s => !(s == "")

/-- Comparison `a > b?` where `b?` may be undefined: a JS comparison
against undefined is false. -/
def gtOpt (a : Nat) : Option Nat → Bool
  | none => false
  | some b => decide (b < a)

/-- Comparison `a < b?` where `b?` may be undefined: a JS comparison
against undefined is false. -/
def ltOpt (a : Nat) : Option Nat → Bool
  | none => false
  | some b => decide (a < b)

/-- Parent link of a work package: first entry of the hierarchy
association list for that child id (a work package has at most one
parent on the server, so the list is keyed uniquely in well-formed
states). -/
def getParent : List (WorkPackageId × WorkPackageId) → WorkPackageId → Option WorkPackageId
  | [], _ => none
  | (c, p) :: rest, id => if c = id then some p else getParent rest id

/-- Children links of a work package, derived from the stored parent
fields exactly as the server derives them. -/
def childrenOf : List (WorkPackageId × WorkPackageId) → WorkPackageId → List WorkPackageId
  | [], _ => []
  | (c, p) :: rest, id => if p = id then c :: childrenOf rest id else childrenOf rest id

/-- checkParentRelationship (source lines 34-59): fetch fromId's work
package and test whether toId is its parent or one of its children.
The fetch is recorded in the trace; id comparison stands for the
string comparison of getHrefId results in the source. -/
def checkParentRelationship (σ : MigState) (fromId toId : WorkPackageId) :
    Bool × MigState :=
  let σf := { σ with trace := σ.trace ++ [MigEvent.fetchWorkPackage fromId] }
  let parentHit := getParent σ.server.parents fromId == some toId
  let childHit := (childrenOf σ.server.parents fromId).contains toId
  (parentHit || childHit, σf)

/-- Relation filter of checkExistingRelationship (source lines 92-107):
both work package ids are listed in both the from and the to filter,
and the two filters are combined with AND by the server. -/
def relationMatches (fromId toId : WorkPackageId) (r : WPRelation) : Bool :=
  (r.fromId == fromId || r.fromId == toId) && (r.toId == fromId || r.toId == toId)

/-- checkExistingRelationship (source lines 72-161): first the
parent/child check, returning true immediately when it hits; otherwise
the filtered query against the relations endpoint, reporting existence
when the total match count is positive.  The type argument is used
only in log output by the source. -/
def checkExistingRelationship (σ : MigState) (fromId toId : WorkPackageId)
    (type : String) : Bool × MigState :=
  let pc := checkParentRelationship σ fromId toId
  if pc.fst then (true, pc.snd)
  else
    let σq := { pc.snd with trace := pc.snd.trace ++ [MigEvent.queryRelations fromId toId] }
    let total : Nat := (σq.server.relations.filter (relationMatches fromId toId)).length
    (decide (0 < total), σq)

/-- createRelationship (source lines 163-213): log the attempt, consult
checkExistingRelationship, return unchanged when a relationship already
exists, otherwise POST the new relation.  The whole body sits in a
try/catch whose catch only logs, so the function always returns
normally; a server-side rejection of the POST leaves the relation
store unchanged. -/
def createRelationship (σ : MigState) (fromId toId : WorkPackageId)
    (type : String) : MigState :=
  let σa := { σ with trace := σ.trace ++ [MigEvent.attemptCreate fromId toId type] }
  let ex := checkExistingRelationship σa fromId toId type
  if ex.fst then ex.snd
  else
    let σp := { ex.snd with trace := ex.snd.trace ++ [MigEvent.postRelation fromId toId type] }
    if σp.server.acceptCreate fromId toId type then
      { σp with server := { σp.server with
          relations := σp.server.relations ++ [{ fromId := fromId, toId := toId, type := type }] } }
    else σp

/-- Set.add of the missingRelationships set: JSON-serialised entries
deduplicate by value, and insertion order is preserved. -/
def addPending (pending : List PendingRel) (p : PendingRel) : List PendingRel :=
  if pending.contains p then pending else pending ++ [p]

/-- Link classification of the first-pass loop (source lines 245-291):
yields the related issue key, the OpenProject relation type, and the
shouldSkip flag of the duplicate tie-break. -/
def classifyLink (issue : Issue) (link : IssueLink) : IssueKey × String × Bool :=
  match link with
  | .outward typeOutward outwardIssue =>
    match typeOutward with
    | "blocks" => (outwardIssue.key, "blocks", false)
    | "relates to" => (outwardIssue.key, "relates", false)
    | "is parent of" => (outwardIssue.key, "includes", false)
    | "duplicates" =>
        (outwardIssue.key, "duplicates", gtOpt issue.created outwardIssue.created)
    | _ => (outwardIssue.key, "relates", false)
  | .inward typeInward inwardIssue =>
    match typeInward with
    | "is blocked by" => (inwardIssue.key, "blocked", false)
    | "relates to" => (inwardIssue.key, "relates", false)
    | "is child of" => (inwardIssue.key, "partof", false)
    | "is duplicated by" =>
        (inwardIssue.key, "duplicated", ltOpt issue.created inwardIssue.created)
    | _ => (inwardIssue.key, "relates", false)

/-- Body of the first-pass link loop (source lines 244-334): skip when
the tie-break says so, create when the target key resolves to a truthy
work package id, otherwise record the pending triple.  The catch that
would re-queue a rejected creation (lines 308-320) is unreachable,
because createRelationship catches every error internally and always
returns normally. -/
def processLink (issue : Issue) (fromWorkPackageId : WorkPackageId)
    (σ : MigState) (link : IssueLink) : MigState :=
  let c := classifyLink issue link
  let relatedIssueKey := c.fst
  let relationType := c.snd.fst
  let shouldSkip := c.snd.snd
  if shouldSkip then σ
  else
    match truthyId (lookupWP σ.issueToWorkPackageMap relatedIssueKey) with
    | some toWorkPackageId =>
        createRelationship σ fromWorkPackageId toWorkPackageId relationType
    | none =>
        { σ with missing := addPending σ.missing ⟨issue.key, relatedIssueKey, relationType⟩ }

/-- Epic-link block of handleRelationships (source lines 221-239):
when the customfield_10014 value is truthy, create a partof relation
to the epic's work package, or record the pending triple when the epic
key does not resolve. -/
def handleEpicLink (issue : Issue) (fromWorkPackageId : WorkPackageId)
    (σ : MigState) : MigState :=
  match issue.customfield_10014 with
  | none => σ
  | some epicKey =>
    if epicKey = "" then σ
    else
      match truthyId (lookupWP σ.issueToWorkPackageMap epicKey) with
      | some epicWorkPackageId =>
          createRelationship σ fromWorkPackageId epicWorkPackageId "partof"
      | none =>
          { σ with missing := addPending σ.missing ⟨issue.key, epicKey, "partof"⟩ }

/-- Regular-link block of handleRelationships (source lines 242-334):
return when the issuelinks field is absent or empty, otherwise process
each link in source order. -/
def handleIssueLinks (issue : Issue) (fromWorkPackageId : WorkPackageId)
    (σ : MigState) : MigState :=
  match issue.issuelinks with
  | none => σ
  | some links =>
    if links.isEmpty then σ
    else links.foldl (processLink issue fromWorkPackageId) σ

/-- handleRelationships (source lines 215-335): return when the issue
has neither links nor a truthy epic field, return when the issue's own
key does not resolve to a truthy work package id, otherwise handle the
epic link first and then the regular links. -/
def handleRelationships (σ : MigState) (issue : Issue) : MigState :=
  if issue.issuelinks.isNone && !(strTruthy issue.customfield_10014) then σ
  else
    match truthyId (lookupWP σ.issueToWorkPackageMap issue.key) with
    | none => σ
    | some fromWorkPackageId =>
        handleIssueLinks issue fromWorkPackageId
          (handleEpicLink issue fromWorkPackageId σ)

/-- Body of the retry loop (source lines 348-368): re-resolve both
endpoints and create once when both are truthy; otherwise log the
still-missing line and drop the entry.  The catch around the creation
(lines 358-362) is unreachable for the same reason as in the first
pass. -/
def retryOne (σ : MigState) (rel : PendingRel) : MigState :=
  match truthyId (lookupWP σ.issueToWorkPackageMap rel.fromKey),
        truthyId (lookupWP σ.issueToWorkPackageMap rel.toKey) with
  | some fromWorkPackageId, some toWorkPackageId =>
      createRelationship σ fromWorkPackageId toWorkPackageId rel.type
  | _, _ =>
      { σ with trace := σ.trace ++ [MigEvent.stillMissing rel.fromKey rel.toKey rel.type] }

/-- retryMissingRelationships (source lines 337-369): return when the
set is empty, otherwise snapshot the pending entries, clear the set,
and process each snapshot entry once. -/
def retryMissingRelationships (σ : MigState) : MigState :=
  if σ.missing.isEmpty then σ
  else
    let retryRelationships := σ.missing
    let σc := { σ with missing := [] }
    retryRelationships.foldl retryOne σc

/-- JS Map.set: overwrite the value of an existing key in place, or
append a new entry. -/
def mapSet (m : List (IssueKey × WorkPackageId)) (entry : IssueKey × WorkPackageId) :
    List (IssueKey × WorkPackageId) :=
  match m with
  | [] => [entry]
  | (k, v) :: rest => if k = entry.fst then (k, entry.snd) :: rest else (k, v) :: mapSet rest entry

/-- createRelationships, the exported entry point (source lines
371-392): merge the provided entries into the module-level map (the
map is never cleared), run the first pass over every issue, then run
the retry pass.  The function returns nothing to its caller; the
embedding returns the final module state.  The outer try/catch only
logs and is unreachable since every callee returns normally. -/
def createRelationships (σ : MigState) (issues : List Issue)
    (issueKeyToWorkPackageIdMap : List (IssueKey × WorkPackageId)) : MigState :=
  let σm := { σ with issueToWorkPackageMap :=
      issueKeyToWorkPackageIdMap.foldl mapSet σ.issueToWorkPackageMap }
  let σ1 := issues.foldl handleRelationships σm
  retryMissingRelationships σ1

/-- Relation-creation POSTs of a trace. -/
def postEvents (tr : List MigEvent) : List MigEvent :=
  tr.filter fun e =>
    match e with
    | .postRelation _ _ _ => true
    | _ => false

/-- Number of creation attempts for a given triple recorded in a trace
(the "Attempting to create relationship" log opening every
createRelationship call). -/
def countAttempt (tr : List MigEvent) (fromId toId : WorkPackageId) (type : String) : Nat :=
  (tr.filter (· == MigEvent.attemptCreate fromId toId type)).length

end OJI

namespace OJI

/-- Server that accepts every relation creation. -/
def srvAcceptAll : Server :=
  { parents := [], relations := [], acceptCreate := fun _ _ _ => true }

/-- Server that rejects every relation creation. -/
def srvRejectAll : Server :=
  { parents := [], relations := [], acceptCreate := fun _ _ _ => false }

lemma checkParent_fst (σ : MigState) (f t : WorkPackageId) :
    (checkParentRelationship σ f t).fst
      = ((getParent σ.server.parents f == some t)
          || (childrenOf σ.server.parents f).contains t) := rfl

lemma checkParent_snd (σ : MigState) (f t : WorkPackageId) :
    (checkParentRelationship σ f t).snd
      = { σ with trace := σ.trace ++ [MigEvent.fetchWorkPackage f] } := rfl

lemma checkExisting_fst (σ : MigState) (f t : WorkPackageId) (ty : String) :
    (checkExistingRelationship σ f t ty).fst
      = ((checkParentRelationship σ f t).fst
          || decide (0 < (σ.server.relations.filter (relationMatches f t)).length)) := by
  by_cases h : (checkParentRelationship σ f t).fst <;>
    simp [checkExistingRelationship, h, checkParent_snd]

lemma checkExisting_snd (σ : MigState) (f t : WorkPackageId) (ty : String) :
    (checkExistingRelationship σ f t ty).snd
      = if (checkParentRelationship σ f t).fst then
          { σ with trace := σ.trace ++ [MigEvent.fetchWorkPackage f] }
        else
          { σ with trace := σ.trace
              ++ [MigEvent.fetchWorkPackage f, MigEvent.queryRelations f t] } := by
  by_cases h : (checkParentRelationship σ f t).fst <;>
    simp [checkExistingRelationship, h, checkParent_snd]

lemma checkExisting_fst_traceFree (σ : MigState) (tr : List MigEvent)
    (f t : WorkPackageId) (ty : String) :
    (checkExistingRelationship { σ with trace := tr } f t ty).fst
      = (checkExistingRelationship σ f t ty).fst := by
  rw [checkExisting_fst, checkExisting_fst, checkParent_fst, checkParent_fst]

lemma checkExisting_snd_server (σ : MigState) (f t : WorkPackageId) (ty : String) :
    ((checkExistingRelationship σ f t ty).snd).server = σ.server := by
  rw [checkExisting_snd]
  by_cases h : (checkParentRelationship σ f t).fst <;> simp [h]

lemma checkExisting_snd_missing (σ : MigState) (f t : WorkPackageId) (ty : String) :
    ((checkExistingRelationship σ f t ty).snd).missing = σ.missing := by
  rw [checkExisting_snd]
  by_cases h : (checkParentRelationship σ f t).fst <;> simp [h]

lemma checkExisting_snd_map (σ : MigState) (f t : WorkPackageId) (ty : String) :
    ((checkExistingRelationship σ f t ty).snd).issueToWorkPackageMap
      = σ.issueToWorkPackageMap := by
  rw [checkExisting_snd]
  by_cases h : (checkParentRelationship σ f t).fst <;> simp [h]

lemma postEvents_append (a b : List MigEvent) :
    postEvents (a ++ b) = postEvents a ++ postEvents b := by
  simp [postEvents, List.filter_append]

lemma checkExisting_snd_posts (σ : MigState) (f t : WorkPackageId) (ty : String) :
    postEvents ((checkExistingRelationship σ f t ty).snd).trace = postEvents σ.trace := by
  rw [checkExisting_snd]
  by_cases h : (checkParentRelationship σ f t).fst <;>
    simp [h, postEvents_append, postEvents]

end OJI

namespace OJI

lemma postEvents_attempt (f t : WorkPackageId) (ty : String) :
    postEvents [MigEvent.attemptCreate f t ty] = [] := rfl

lemma postEvents_post (f t : WorkPackageId) (ty : String) :
    postEvents [MigEvent.postRelation f t ty] = [MigEvent.postRelation f t ty] := rfl

lemma createRelationship_map (σ : MigState) (f t : WorkPackageId) (ty : String) :
    (createRelationship σ f t ty).issueToWorkPackageMap = σ.issueToWorkPackageMap := by
  simp only [createRelationship]
  split
  · exact checkExisting_snd_map _ f t ty
  · split
    · exact checkExisting_snd_map _ f t ty
    · exact checkExisting_snd_map _ f t ty

lemma createRelationship_missing (σ : MigState) (f t : WorkPackageId) (ty : String) :
    (createRelationship σ f t ty).missing = σ.missing := by
  simp only [createRelationship]
  split
  · exact checkExisting_snd_missing _ f t ty
  · split
    · exact checkExisting_snd_missing _ f t ty
    · exact checkExisting_snd_missing _ f t ty

lemma createRelationship_of_exists (σ : MigState) (f t : WorkPackageId) (ty : String)
    (h : (checkExistingRelationship σ f t ty).fst = true) :
    createRelationship σ f t ty
      = (checkExistingRelationship
          { σ with trace := σ.trace ++ [MigEvent.attemptCreate f t ty] } f t ty).snd := by
  have ha := checkExisting_fst_traceFree σ (σ.trace ++ [MigEvent.attemptCreate f t ty]) f t ty
  simp only [createRelationship]
  rw [ha, h]
  simp

lemma createRelationship_server_of_exists (σ : MigState) (f t : WorkPackageId) (ty : String)
    (h : (checkExistingRelationship σ f t ty).fst = true) :
    (createRelationship σ f t ty).server = σ.server := by
  rw [createRelationship_of_exists σ f t ty h]
  exact checkExisting_snd_server _ f t ty

lemma createRelationship_posts_of_exists (σ : MigState) (f t : WorkPackageId) (ty : String)
    (h : (checkExistingRelationship σ f t ty).fst = true) :
    postEvents (createRelationship σ f t ty).trace = postEvents σ.trace := by
  rw [createRelationship_of_exists σ f t ty h, checkExisting_snd_posts]
  show postEvents (σ.trace ++ [MigEvent.attemptCreate f t ty]) = postEvents σ.trace
  rw [postEvents_append, postEvents_attempt, List.append_nil]

lemma createRelationship_posts_of_not (σ : MigState) (f t : WorkPackageId) (ty : String)
    (h : (checkExistingRelationship σ f t ty).fst = false) :
    postEvents (createRelationship σ f t ty).trace
      = postEvents σ.trace ++ [MigEvent.postRelation f t ty] := by
  have ha := checkExisting_fst_traceFree σ (σ.trace ++ [MigEvent.attemptCreate f t ty]) f t ty
  have key : postEvents ((checkExistingRelationship
        { σ with trace := σ.trace ++ [MigEvent.attemptCreate f t ty] } f t ty).snd.trace
        ++ [MigEvent.postRelation f t ty])
      = postEvents σ.trace ++ [MigEvent.postRelation f t ty] := by
    rw [postEvents_append, checkExisting_snd_posts]
    show postEvents (σ.trace ++ [MigEvent.attemptCreate f t ty])
        ++ postEvents [MigEvent.postRelation f t ty] = _
    rw [postEvents_append, postEvents_attempt, postEvents_post, List.append_nil]
  simp only [createRelationship]
  rw [ha, h]
  simp only [Bool.false_eq_true, if_false]
  split
  · exact key
  · exact key

end OJI

namespace OJI

lemma processLink_map (issue : Issue) (f : WorkPackageId) (σ : MigState) (link : IssueLink) :
    (processLink issue f σ link).issueToWorkPackageMap = σ.issueToWorkPackageMap := by
  simp only [processLink]
  split
  · rfl
  · split
    · exact createRelationship_map σ f _ _
    · rfl

lemma foldl_processLink_map (issue : Issue) (f : WorkPackageId) :
    ∀ (links : List IssueLink) (σ : MigState),
      (links.foldl (processLink issue f) σ).issueToWorkPackageMap
        = σ.issueToWorkPackageMap
  | [], _ => rfl
  | l :: ls, σ => by
      rw [List.foldl_cons, foldl_processLink_map issue f ls, processLink_map]

lemma handleEpicLink_map (issue : Issue) (f : WorkPackageId) (σ : MigState) :
    (handleEpicLink issue f σ).issueToWorkPackageMap = σ.issueToWorkPackageMap := by
  simp only [handleEpicLink]
  split
  · rfl
  · split
    · rfl
    · split
      · exact createRelationship_map σ f _ _
      · rfl

lemma handleIssueLinks_map (issue : Issue) (f : WorkPackageId) (σ : MigState) :
    (handleIssueLinks issue f σ).issueToWorkPackageMap = σ.issueToWorkPackageMap := by
  simp only [handleIssueLinks]
  split
  · rfl
  · split
    · rfl
    · exact foldl_processLink_map issue f _ σ

lemma handleRelationships_map (σ : MigState) (issue : Issue) :
    (handleRelationships σ issue).issueToWorkPackageMap = σ.issueToWorkPackageMap := by
  simp only [handleRelationships]
  split
  · rfl
  · split
    · rfl
    · rw [handleIssueLinks_map, handleEpicLink_map]

lemma foldl_handleRelationships_map :
    ∀ (issues : List Issue) (σ : MigState),
      (issues.foldl handleRelationships σ).issueToWorkPackageMap
        = σ.issueToWorkPackageMap
  | [], _ => rfl
  | i :: is, σ => by
      rw [List.foldl_cons, foldl_handleRelationships_map is, handleRelationships_map]

lemma retryOne_map (σ : MigState) (rel : PendingRel) :
    (retryOne σ rel).issueToWorkPackageMap = σ.issueToWorkPackageMap := by
  simp only [retryOne]
  split
  · exact createRelationship_map σ _ _ _
  · rfl

lemma retryOne_missing (σ : MigState) (rel : PendingRel) :
    (retryOne σ rel).missing = σ.missing := by
  simp only [retryOne]
  split
  · exact createRelationship_missing σ _ _ _
  · rfl

lemma foldl_retryOne_map :
    ∀ (rels : List PendingRel) (σ : MigState),
      (rels.foldl retryOne σ).issueToWorkPackageMap = σ.issueToWorkPackageMap
  | [], _ => rfl
  | r :: rs, σ => by
      rw [List.foldl_cons, foldl_retryOne_map rs, retryOne_map]

lemma foldl_retryOne_missing :
    ∀ (rels : List PendingRel) (σ : MigState),
      (rels.foldl retryOne σ).missing = σ.missing
  | [], _ => rfl
  | r :: rs, σ => by
      rw [List.foldl_cons, foldl_retryOne_missing rs, retryOne_missing]

lemma retryMissing_map (σ : MigState) :
    (retryMissingRelationships σ).issueToWorkPackageMap = σ.issueToWorkPackageMap := by
  simp only [retryMissingRelationships]
  split
  · rfl
  · rw [foldl_retryOne_map]

lemma retryMissing_missing (σ : MigState) :
    (retryMissingRelationships σ).missing = [] := by
  by_cases h : σ.missing.isEmpty
  · have hnil : σ.missing = [] := by simpa using h
    simp [retryMissingRelationships, h, hnil]
  · simp only [retryMissingRelationships, h, Bool.false_eq_true, if_false]
    rw [foldl_retryOne_missing]

end OJI

namespace OJI

lemma mem_childrenOf :
    ∀ (ps : List (WorkPackageId × WorkPackageId)) (x id : WorkPackageId),
      (x ∈ childrenOf ps id ↔ (x, id) ∈ ps)
  | [], x, id => by simp [childrenOf]
  | (c, p) :: tl, x, id => by
      by_cases h : p = id
      · subst h
        simp [childrenOf, mem_childrenOf tl x p, Prod.ext_iff]
      · have h2 : ¬ id = p := fun hh => h hh.symm
        simp [childrenOf, h, h2, mem_childrenOf tl x id, Prod.ext_iff]

lemma getParent_eq_some :
    ∀ (ps : List (WorkPackageId × WorkPackageId)), (ps.map Prod.fst).Nodup →
      ∀ (a b : WorkPackageId), (getParent ps a = some b ↔ (a, b) ∈ ps)
  | [], _, a, b => by simp [getParent]
  | (c, p) :: tl, hnd, a, b => by
      simp only [List.map_cons, List.nodup_cons] at hnd
      obtain ⟨hc, htl⟩ := hnd
      by_cases h : c = a
      · subst h
        have hg : getParent ((c, p) :: tl) c = some p := by simp [getParent]
        rw [hg]
        simp only [List.mem_cons, Option.some_inj, Prod.mk.injEq]
        constructor
        · intro hpb
          exact Or.inl ⟨trivial, hpb.symm⟩
        · rintro (⟨-, hbp⟩ | hmem)
          · exact hbp.symm
          · exact absurd (List.mem_map_of_mem Prod.fst hmem) hc
      · simp only [getParent, if_neg h, List.mem_cons, Prod.mk.injEq]
        rw [getParent_eq_some tl htl a b]
        constructor
        · exact Or.inr
        · rintro (⟨hac, -⟩ | hmem)
          · exact absurd hac.symm h
          · exact hmem

lemma parentCheck_prop (σ : MigState) (hnd : (σ.server.parents.map Prod.fst).Nodup)
    (a b : WorkPackageId) :
    ((checkParentRelationship σ a b).fst = true)
      ↔ ((a, b) ∈ σ.server.parents ∨ (b, a) ∈ σ.server.parents) := by
  rw [checkParent_fst]
  simp [getParent_eq_some _ hnd, mem_childrenOf]

end OJI

namespace OJI

/-- Concrete server for witnesses: one stored hierarchy link (1 is the
parent of 2) and one stored relation from 5 to 6. -/
def srvRelStored : Server :=
  { parents := [(2, 1)], relations := [{ fromId := 5, toId := 6, type := "blocks" }],
    acceptCreate := fun _ _ _ => true }

/-- C4: the relationship existence oracle is symmetric in its two
work-item arguments.  For every well-formed server state (a work
package has at most one stored parent, so the hierarchy keys carry no
duplicates) and every pair of ids, checkExistingRelationship answers
the same in both argument orders: a relation stored in either
direction, and a parent/child link in either direction, produce the
same existence answer. -/
theorem oracle_symmetric (σ : MigState) (a b : WorkPackageId) (ty : String)
    (hnd : (σ.server.parents.map Prod.fst).Nodup) :
    (checkExistingRelationship σ a b ty).fst
      = (checkExistingRelationship σ b a ty).fst := by
  rw [checkExisting_fst, checkExisting_fst]
  have hq : σ.server.relations.filter (relationMatches a b)
      = σ.server.relations.filter (relationMatches b a) :=
    List.filter_congr fun r _ => by simp [relationMatches, Bool.or_comm]
  have hp : (checkParentRelationship σ a b).fst = (checkParentRelationship σ b a).fst := by
    rw [Bool.eq_iff_iff, parentCheck_prop σ hnd a b, parentCheck_prop σ hnd b a]
    exact or_comm
  rw [hp, hq]

/-- Witness for oracle_symmetric: a concrete state with a stored
relation from 5 to 6 and a stored hierarchy link. -/
theorem oracle_symmetric_witness :
    ((initState srvRelStored).server.parents.map Prod.fst).Nodup
    ∧ (checkExistingRelationship (initState srvRelStored) 5 6 "relates").fst
        = (checkExistingRelationship (initState srvRelStored) 6 5 "relates").fst :=
  ⟨by decide, oracle_symmetric (initState srvRelStored) 5 6 "relates" (by decide)⟩

/-- C6: the oracle runs its two checks in a fixed short-circuited
order.  Whenever the parent/child check on the fetched work package of
fromId hits (toId is its parent or one of its children, covering both
hierarchy directions), checkExistingRelationship answers true after
the single fetch, the relation-index query is never issued (the trace
gains only the fetch event), and createRelationship leaves the
relation store unchanged for the pair, whatever the requested type. -/
theorem parentChild_shortCircuit (σ : MigState) (f t : WorkPackageId) (ty : String)
    (hp : (checkParentRelationship σ f t).fst = true) :
    (checkExistingRelationship σ f t ty).fst = true
    ∧ (checkExistingRelationship σ f t ty).snd.trace
        = σ.trace ++ [MigEvent.fetchWorkPackage f]
    ∧ (createRelationship σ f t ty).server.relations = σ.server.relations := by
  have h1 : (checkExistingRelationship σ f t ty).fst = true := by
    rw [checkExisting_fst, hp, Bool.true_or]
  refine ⟨h1, ?_, ?_⟩
  · rw [checkExisting_snd]
    simp [hp]
  · rw [createRelationship_server_of_exists σ f t ty h1]

/-- Witness for parentChild_shortCircuit, in both hierarchy
directions of the concrete state (1 is the parent of 2). -/
theorem parentChild_shortCircuit_witness :
    ((checkParentRelationship (initState srvRelStored) 1 2).fst = true
      ∧ (createRelationship (initState srvRelStored) 1 2 "relates").server.relations
          = (initState srvRelStored).server.relations)
    ∧ ((checkParentRelationship (initState srvRelStored) 2 1).fst = true
      ∧ (createRelationship (initState srvRelStored) 2 1 "relates").server.relations
          = (initState srvRelStored).server.relations) :=
  ⟨⟨by decide, (parentChild_shortCircuit (initState srvRelStored) 1 2 "relates"
      (by decide)).2.2⟩,
   ⟨by decide, (parentChild_shortCircuit (initState srvRelStored) 2 1 "relates"
      (by decide)).2.2⟩⟩

/-- C7: createRelationship consults the oracle first.  When the oracle
reports existing evidence the creation POST is not issued and the
server is unchanged (a skip, not an error); otherwise exactly one
creation POST for the triple is issued.  In either case the module
map and pending set are untouched; the embedding is a total function,
mirroring the catch-all of source lines 202-212 through which no
exception crosses the per-relationship boundary. -/
theorem creator_checkThenCreate (σ : MigState) (f t : WorkPackageId) (ty : String) :
    ((checkExistingRelationship σ f t ty).fst = true →
        (createRelationship σ f t ty).server = σ.server
        ∧ postEvents (createRelationship σ f t ty).trace = postEvents σ.trace)
    ∧ ((checkExistingRelationship σ f t ty).fst = false →
        postEvents (createRelationship σ f t ty).trace
          = postEvents σ.trace ++ [MigEvent.postRelation f t ty])
    ∧ (createRelationship σ f t ty).missing = σ.missing
    ∧ (createRelationship σ f t ty).issueToWorkPackageMap = σ.issueToWorkPackageMap :=
  ⟨fun h => ⟨createRelationship_server_of_exists σ f t ty h,
             createRelationship_posts_of_exists σ f t ty h⟩,
   fun h => createRelationship_posts_of_not σ f t ty h,
   createRelationship_missing σ f t ty,
   createRelationship_map σ f t ty⟩

/-- Witness for creator_checkThenCreate: the skip case on a pair with
a stored relation, and the create case on a fresh pair. -/
theorem creator_checkThenCreate_witness :
    ((checkExistingRelationship (initState srvRelStored) 5 6 "relates").fst = true
      ∧ (createRelationship (initState srvRelStored) 5 6 "relates").server
          = (initState srvRelStored).server)
    ∧ ((checkExistingRelationship (initState srvAcceptAll) 1 2 "relates").fst = false
      ∧ postEvents (createRelationship (initState srvAcceptAll) 1 2 "relates").trace
          = postEvents (initState srvAcceptAll).trace
              ++ [MigEvent.postRelation 1 2 "relates"]) :=
  ⟨⟨by decide, ((creator_checkThenCreate (initState srvRelStored) 5 6 "relates").1
      (by decide)).1⟩,
   ⟨by decide, (creator_checkThenCreate (initState srvAcceptAll) 1 2 "relates").2.1
      (by decide)⟩⟩

/-- C10: an issue whose own key has no entry in the mapping is dropped
silently by the per-issue pass: handleRelationships returns the state
unchanged, so none of its epic or issue links are created, and none
are added to the retry queue. -/
theorem unmappedIssue_dropped (σ : MigState) (issue : Issue)
    (h : lookupWP σ.issueToWorkPackageMap issue.key = none) :
    handleRelationships σ issue = σ := by
  simp only [handleRelationships]
  split
  · rfl
  · rw [h]
    rfl

/-- Concrete issue for the unmapped-issue witness: it has both an epic
link and an issue link, but its own key is not in the mapping. -/
def issueUnmapped : Issue :=
  { key := "Z-1", created := 0, customfield_10014 := some "Z-2",
    issuelinks := some [.outward "blocks" { key := "Z-3", created := none }] }

/-- Witness for unmappedIssue_dropped on an empty mapping. -/
theorem unmappedIssue_dropped_witness :
    lookupWP (initState srvAcceptAll).issueToWorkPackageMap issueUnmapped.key = none
    ∧ handleRelationships (initState srvAcceptAll) issueUnmapped
        = initState srvAcceptAll :=
  ⟨rfl, unmappedIssue_dropped (initState srvAcceptAll) issueUnmapped rfl⟩

end OJI

namespace OJI

lemma countAttempt_append (a b : List MigEvent) (f t : WorkPackageId) (ty : String) :
    countAttempt (a ++ b) f t ty = countAttempt a f t ty + countAttempt b f t ty := by
  simp [countAttempt, List.filter_append]

lemma checkExisting_snd_trace_shape (σ : MigState) (f t : WorkPackageId) (ty : String) :
    ∃ extra, (checkExistingRelationship σ f t ty).snd.trace = σ.trace ++ extra
      ∧ ∀ g h2 ty2, countAttempt extra g h2 ty2 = 0 := by
  rw [checkExisting_snd]
  by_cases hp : (checkParentRelationship σ f t).fst
  · refine ⟨[MigEvent.fetchWorkPackage f], ?_, ?_⟩
    · simp [hp]
    · intro g h2 ty2
      simp [countAttempt]
  · refine ⟨[MigEvent.fetchWorkPackage f, MigEvent.queryRelations f t], ?_, ?_⟩
    · simp [hp]
    · intro g h2 ty2
      simp [countAttempt]

lemma createRelationship_trace_shape (σ : MigState) (f t : WorkPackageId) (ty : String) :
    ∃ extra, (createRelationship σ f t ty).trace
        = σ.trace ++ [MigEvent.attemptCreate f t ty] ++ extra
      ∧ ∀ g h2 ty2, countAttempt extra g h2 ty2 = 0 := by
  obtain ⟨extra, he, hz⟩ := checkExisting_snd_trace_shape
    { σ with trace := σ.trace ++ [MigEvent.attemptCreate f t ty] } f t ty
  simp only [createRelationship]
  split
  · refine ⟨extra, ?_, hz⟩
    rw [he]
  · split
    · refine ⟨extra ++ [MigEvent.postRelation f t ty], ?_, ?_⟩
      · show (checkExistingRelationship
            { σ with trace := σ.trace ++ [MigEvent.attemptCreate f t ty] } f t ty).snd.trace
            ++ [MigEvent.postRelation f t ty] = _
        rw [he, List.append_assoc]
      · intro g h2 ty2
        rw [countAttempt_append, hz]
        simp [countAttempt]
    · refine ⟨extra ++ [MigEvent.postRelation f t ty], ?_, ?_⟩
      · show (checkExistingRelationship
            { σ with trace := σ.trace ++ [MigEvent.attemptCreate f t ty] } f t ty).snd.trace
            ++ [MigEvent.postRelation f t ty] = _
        rw [he, List.append_assoc]
      · intro g h2 ty2
        rw [countAttempt_append, hz]
        simp [countAttempt]

lemma createRelationship_attempts (σ : MigState) (f t : WorkPackageId) (ty : String) :
    countAttempt (createRelationship σ f t ty).trace f t ty
      = countAttempt σ.trace f t ty + 1 := by
  obtain ⟨extra, he, hz⟩ := createRelationship_trace_shape σ f t ty
  rw [he, countAttempt_append, countAttempt_append, hz]
  simp [countAttempt]

end OJI

namespace OJI

/-- C5: missing-target policy and deferred resolution.  First part: a
link candidate classified to a related key and type (with no tie-break
skip) whose target key does not resolve to a truthy work package id is
recorded in the pending set tagged with the issue's raw key, the raw
related key and the relation type, and nothing else happens — no
creation call is made in the first pass.  Second part: a pending entry
whose two endpoints both resolve by the retry pass is given exactly
one creation attempt for the resolved triple. -/
theorem missingTarget_deferredThenRetried (σ : MigState) (issue : Issue)
    (link : IssueLink) (f f2 t2 : WorkPackageId) (k ty : String) (p : PendingRel) :
    (classifyLink issue link = (k, ty, false) →
      truthyId (lookupWP σ.issueToWorkPackageMap k) = none →
      processLink issue f σ link
        = { σ with missing := addPending σ.missing ⟨issue.key, k, ty⟩ })
    ∧ (σ.missing = [p] →
      truthyId (lookupWP σ.issueToWorkPackageMap p.fromKey) = some f2 →
      truthyId (lookupWP σ.issueToWorkPackageMap p.toKey) = some t2 →
      countAttempt (retryMissingRelationships σ).trace f2 t2 p.type
        = countAttempt σ.trace f2 t2 p.type + 1) := by
  constructor
  · intro hcl hmiss
    simp [processLink, hcl, hmiss]
  · intro hm hf ht
    have hmne : σ.missing.isEmpty = false := by rw [hm]; rfl
    simp only [retryMissingRelationships, hmne, Bool.false_eq_true, if_false, hm,
      List.foldl_cons, List.foldl_nil]
    have hσc : ({ σ with missing := ([] : List PendingRel) }).issueToWorkPackageMap
        = σ.issueToWorkPackageMap := rfl
    simp only [retryOne, hσc, hf, ht]
    have hc := createRelationship_attempts
      { σ with missing := ([] : List PendingRel) } f2 t2 p.type
    simpa using hc

/-- Concrete state for the missing-target witness: PROJ-9 and X are
mapped, PROJ-999 is not, and one pending entry from PROJ-9 to X. -/
def σC5 : MigState :=
  { issueToWorkPackageMap := [("PROJ-9", 9), ("X", 5)],
    missing := [⟨"PROJ-9", "X", "relates"⟩],
    server := srvAcceptAll, trace := [] }

/-- Link of the missing-target witness: outward relates-to link of
PROJ-9 pointing at the unmapped PROJ-999. -/
def linkC5 : IssueLink := .outward "relates to" { key := "PROJ-999", created := none }

/-- Issue of the missing-target witness. -/
def issueC5 : Issue :=
  { key := "PROJ-9", created := 0, customfield_10014 := none,
    issuelinks := some [linkC5] }

/-- Witness for missingTarget_deferredThenRetried: part one defers the
PROJ-999 link, part two retries the resolvable pending entry exactly
once. -/
theorem missingTarget_deferredThenRetried_witness :
    (classifyLink issueC5 linkC5 = ("PROJ-999", "relates", false)
      ∧ truthyId (lookupWP σC5.issueToWorkPackageMap "PROJ-999") = none
      ∧ processLink issueC5 9 σC5 linkC5
          = { σC5 with missing := addPending σC5.missing ⟨"PROJ-9", "PROJ-999", "relates"⟩ })
    ∧ (σC5.missing = [⟨"PROJ-9", "X", "relates"⟩]
      ∧ countAttempt (retryMissingRelationships σC5).trace 9 5 "relates"
          = countAttempt σC5.trace 9 5 "relates" + 1) :=
  ⟨⟨rfl, rfl,
    (missingTarget_deferredThenRetried σC5 issueC5 linkC5 9 9 5 "PROJ-999" "relates"
      ⟨"PROJ-9", "X", "relates"⟩).1 rfl rfl⟩,
   ⟨rfl,
    (missingTarget_deferredThenRetried σC5 issueC5 linkC5 9 9 5 "PROJ-999" "relates"
      ⟨"PROJ-9", "X", "relates"⟩).2 rfl rfl rfl⟩⟩

lemma createRelationship_relations_of_create (σ : MigState) (f t : WorkPackageId)
    (ty : String)
    (hex : (checkExistingRelationship σ f t ty).fst = false)
    (hacc : σ.server.acceptCreate f t ty = true) :
    (createRelationship σ f t ty).server.relations
      = σ.server.relations ++ [{ fromId := f, toId := t, type := ty }] := by
  have ha := checkExisting_fst_traceFree σ (σ.trace ++ [MigEvent.attemptCreate f t ty]) f t ty
  have hsrv : ((checkExistingRelationship
      { σ with trace := σ.trace ++ [MigEvent.attemptCreate f t ty] } f t ty).snd).server
      = σ.server := checkExisting_snd_server _ f t ty
  simp only [createRelationship]
  rw [ha, hex]
  simp [hsrv, hacc]

/-- C8: when the epic-link field of an issue resolves in the mapping
(and the issue's own key does too), the core creates exactly one
partof relation oriented from the issue's work item to the epic's work
item, and does so before the issue's regular links are processed:
handleRelationships factors into the epic creation followed by
handleIssueLinks on the resulting state, whose relation store has
exactly the new partof relation appended. -/
theorem epicLink_partof (σ : MigState) (issue : Issue) (epicKey : IssueKey)
    (f p : WorkPackageId)
    (he : issue.customfield_10014 = some epicKey) (hne : epicKey ≠ "")
    (hf : truthyId (lookupWP σ.issueToWorkPackageMap issue.key) = some f)
    (hp : truthyId (lookupWP σ.issueToWorkPackageMap epicKey) = some p)
    (hex : (checkExistingRelationship σ f p "partof").fst = false)
    (hacc : σ.server.acceptCreate f p "partof" = true) :
    ∃ σ1, handleRelationships σ issue = handleIssueLinks issue f σ1
      ∧ σ1.server.relations
          = σ.server.relations ++ [{ fromId := f, toId := p, type := "partof" }]
      ∧ σ1.missing = σ.missing
      ∧ σ1.issueToWorkPackageMap = σ.issueToWorkPackageMap := by
  refine ⟨createRelationship σ f p "partof", ?_,
    createRelationship_relations_of_create σ f p "partof" hex hacc,
    createRelationship_missing σ f p "partof",
    createRelationship_map σ f p "partof"⟩
  have hguard : (issue.issuelinks.isNone && !(strTruthy issue.customfield_10014)) = false := by
    simp [he, strTruthy, hne]
  simp only [handleRelationships, hguard, Bool.false_eq_true, if_false]
  rw [hf]
  simp only [handleEpicLink, he]
  rw [if_neg hne, hp]

/-- Concrete state for the epic-link witness: the mapping of the
spec's example, PROJ-5 to 42 and PROJ-1 to 7. -/
def σC8 : MigState :=
  { issueToWorkPackageMap := [("PROJ-5", 42), ("PROJ-1", 7)],
    missing := [], server := srvAcceptAll, trace := [] }

/-- Issue of the epic-link witness: PROJ-5 with epic-link PROJ-1. -/
def issuePROJ5 : Issue :=
  { key := "PROJ-5", created := 0, customfield_10014 := some "PROJ-1",
    issuelinks := none }

/-- Witness for epicLink_partof on the spec's example: PROJ-5 with
epic-link PROJ-1 under the mapping PROJ-5 to 42 and PROJ-1 to 7 yields
the partof relation from 42 to 7. -/
theorem epicLink_partof_witness :
    (issuePROJ5.customfield_10014 = some "PROJ-1"
      ∧ truthyId (lookupWP σC8.issueToWorkPackageMap "PROJ-5") = some 42
      ∧ truthyId (lookupWP σC8.issueToWorkPackageMap "PROJ-1") = some 7
      ∧ (checkExistingRelationship σC8 42 7 "partof").fst = false)
    ∧ ∃ σ1, handleRelationships σC8 issuePROJ5 = handleIssueLinks issuePROJ5 42 σ1
      ∧ σ1.server.relations
          = σC8.server.relations ++ [{ fromId := 42, toId := 7, type := "partof" }]
      ∧ σ1.missing = σC8.missing
      ∧ σ1.issueToWorkPackageMap = σC8.issueToWorkPackageMap :=
  ⟨⟨rfl, rfl, rfl, by decide⟩,
   epicLink_partof σC8 issuePROJ5 "PROJ-1" 42 7 rfl (by decide) rfl rfl
     (by decide) rfl⟩

end OJI

namespace OJI

/-- Issue X of the duplicate tie-break scenario: created first (at
time 1), carrying the outward duplicates link to Y. -/
def issueX : Issue :=
  { key := "X", created := 1, customfield_10014 := none,
    issuelinks := some [.outward "duplicates" { key := "Y", created := some 2 }] }

/-- Issue Y of the duplicate tie-break scenario: created second (at
time 2), carrying the symmetric inward is-duplicated-by link to X. -/
def issueY : Issue :=
  { key := "Y", created := 2, customfield_10014 := none,
    issuelinks := some [.inward "is duplicated by" { key := "X", created := some 1 }] }

/-- C1, evaluated at the failing input: X is created before Y, X has
the outward duplicates link to Y, Y the symmetric inward
is-duplicated-by link to X, mapping X to 10 and Y to 20.  The
surviving relation depends on the batch order: processing Y first
yields a single relation of type duplicated oriented from Y's work
item 20 to X's work item 10 — not the duplicates relation from X that
the claim requires — while processing X first yields the claimed
duplicates relation from 10 to 20.  The skip conditions of source
lines 265 and 286 fire together or not at all, so with X the earlier
issue both sides attempt creation, and the existence check keeps
whichever side ran first. -/
theorem duplicateTieBreak_orderDependent :
    (createRelationships (initState srvAcceptAll) [issueY, issueX]
        [("X", 10), ("Y", 20)]).server.relations
      = [{ fromId := 20, toId := 10, type := "duplicated" }]
    ∧ (createRelationships (initState srvAcceptAll) [issueX, issueY]
        [("X", 10), ("Y", 20)]).server.relations
      = [{ fromId := 10, toId := 20, type := "duplicates" }] :=
  ⟨by decide, by decide⟩

/-- Issue of the missing-forever example: PROJ-9 with a relates-to
link to PROJ-999, which never appears in the mapping. -/
def issuePROJ9 : Issue :=
  { key := "PROJ-9", created := 0, customfield_10014 := none,
    issuelinks := some [.outward "relates to" { key := "PROJ-999", created := none }] }

/-- C2 counterexample on the missing-forever example: after the retry
pass the pending set is empty, the relation store is unchanged, and
the only remaining trace of the unresolved relationship is the
still-missing log line.  The entry point returns nothing to its
caller (the source function returns undefined), so the relationship
is dropped without any returned count of failed relationships,
contradicting the claimed summary record. -/
theorem unresolved_noSummaryCounts :
    (createRelationships (initState srvAcceptAll) [issuePROJ9] [("PROJ-9", 9)]).missing = []
    ∧ (createRelationships (initState srvAcceptAll) [issuePROJ9]
        [("PROJ-9", 9)]).server.relations = []
    ∧ (createRelationships (initState srvAcceptAll) [issuePROJ9] [("PROJ-9", 9)]).trace
      = [MigEvent.stillMissing "PROJ-9" "PROJ-999" "relates"] :=
  ⟨by decide, by decide, by decide⟩

/-- C2 as amended: createRelationships returns no summary; a pending
relationship whose target key still does not resolve at the retry
pass is logged as still missing and removed from the pending set, and
the state keeps no count of it — only the log line is added. -/
theorem unresolvedLoggedAndDropped (σ : MigState) (p : PendingRel)
    (hm : σ.missing = [p])
    (hto : truthyId (lookupWP σ.issueToWorkPackageMap p.toKey) = none) :
    retryMissingRelationships σ
      = { σ with missing := [], trace := σ.trace ++ [MigEvent.stillMissing p.fromKey p.toKey p.type] } := by
  have hmne : σ.missing.isEmpty = false := by rw [hm]; rfl
  simp only [retryMissingRelationships, hmne, Bool.false_eq_true, if_false, hm,
    List.foldl_cons, List.foldl_nil]
  have hσc : ({ σ with missing := ([] : List PendingRel) }).issueToWorkPackageMap
      = σ.issueToWorkPackageMap := rfl
  simp only [retryOne, hσc, hto]
  cases hf : truthyId (lookupWP σ.issueToWorkPackageMap p.fromKey) <;> rfl

/-- Concrete state for the unresolved-entry witness: PROJ-9 resolves,
PROJ-999 does not, one pending entry between them. -/
def σC2r : MigState :=
  { issueToWorkPackageMap := [("PROJ-9", 9)],
    missing := [⟨"PROJ-9", "PROJ-999", "relates"⟩],
    server := srvAcceptAll, trace := [] }

/-- Witness for unresolvedLoggedAndDropped. -/
theorem unresolvedLoggedAndDropped_witness :
    σC2r.missing = [⟨"PROJ-9", "PROJ-999", "relates"⟩]
    ∧ retryMissingRelationships σC2r
        = { σC2r with missing := [], trace := [MigEvent.stillMissing "PROJ-9" "PROJ-999" "relates"] } :=
  ⟨rfl, unresolvedLoggedAndDropped σC2r ⟨"PROJ-9", "PROJ-999", "relates"⟩ rfl rfl⟩

/-- Issue of the creation-failure scenario: A with an outward blocks
link to B, both mapped. -/
def issueAB : Issue :=
  { key := "A", created := 0, customfield_10014 := none,
    issuelinks := some [.outward "blocks" { key := "B", created := none }] }

/-- C3, evaluated at the failing input: both endpoints are mapped and
the server rejects the creation POST.  The first pass attempts the
creation exactly once (one attempt event, one POST event), the
rejection is swallowed inside createRelationship, and the retry queue
stays empty: the failed creation is neither enqueued nor retried — the
enqueue-on-failure catch of source lines 308-320 is unreachable
because createRelationship catches every error internally. -/
theorem creationFailure_notRequeued :
    (createRelationships (initState srvRejectAll) [issueAB] [("A", 1), ("B", 2)]).missing = []
    ∧ (createRelationships (initState srvRejectAll) [issueAB]
        [("A", 1), ("B", 2)]).server.relations = []
    ∧ (createRelationships (initState srvRejectAll) [issueAB] [("A", 1), ("B", 2)]).trace
      = [MigEvent.attemptCreate 1 2 "blocks", MigEvent.fetchWorkPackage 1,
         MigEvent.queryRelations 1 2, MigEvent.postRelation 1 2 "blocks"] :=
  ⟨by decide, by decide, by decide⟩

/-- Issue of the carry-over scenario: key A with epic-link B and no
issue links. -/
def issueA9 : Issue :=
  { key := "A", created := 0, customfield_10014 := some "B", issuelinks := none }

/-- C9 counterexample: the module-level map persists across
invocations.  After a first call that merges A to 1 and B to 2, a
second call whose own mapping argument is empty still resolves both
keys from the first call's entries and creates a partof relation —
the second call does not start from an empty mapping. -/
theorem mappingCarriesOver :
    (createRelationships
        (createRelationships (initState srvAcceptAll) [] [("A", 1), ("B", 2)])
        [issueA9] []).server.relations
      = [{ fromId := 1, toId := 2, type := "partof" }]
    ∧ lookupWP (createRelationships (initState srvAcceptAll) []
        [("A", 1), ("B", 2)]).issueToWorkPackageMap "A" = some 1 :=
  ⟨by decide, by decide⟩

/-- C9 as amended: createRelationships does not re-initialize the
module-level structures.  It merges the provided entries into the
existing mapping, so the final mapping is exactly the previous mapping
extended by the call's entries (keys from earlier calls persist),
while the pending set is drained by the retry pass and is therefore
empty at the end of every call (never cleared at entry). -/
theorem mapMerged_missingDrained (σ : MigState) (issues : List Issue)
    (m : List (IssueKey × WorkPackageId)) :
    (createRelationships σ issues m).issueToWorkPackageMap
        = m.foldl mapSet σ.issueToWorkPackageMap
    ∧ (createRelationships σ issues m).missing = [] := by
  constructor
  · simp only [createRelationships]
    rw [retryMissing_map, foldl_handleRelationships_map]
  · simp only [createRelationships]
    exact retryMissing_missing _

end OJI
